import Mathlib

/-!
Shallow embedding of the skill-swap CLI's domain core (src/lib of the
Clf-blip/skill-swap repository): the service-request lifecycle state
machine, the review-eligibility gate, registration / soft deletion of
users, the skill link table, and the login guard.

The relational store is modelled as lists of rows; each domain operation
is a function `DB -> ... -> DB × Option DomainError` returning the
resulting store together with the error (if any) the Python function
printed before returning False.  Timestamps are modelled as naturals in
an order-preserving encoding of (year, month, day, hour, minute); the
call-time clock value `now` is passed explicitly.
-/

namespace SkillSwap

/-- A row of the `users` table (src/lib/models.py, class User).
`deletedAt = none` means the account is active; `delete_user`
(src/lib/user.py) only ever sets this marker (soft delete). -/
structure UserRow where
  id : Nat
  username : String
  email : String
  passwordHash : String
  fullName : Option String
  bio : Option String
  deletedAt : Option Nat
deriving DecidableEq, Repr

/-- A row of the `skills` table (src/lib/models.py, class Skill). -/
structure SkillRow where
  id : Nat
  name : String
deriving DecidableEq, Repr

/-- A row of the `user_skills` link table (src/lib/models.py, class UserSkill). -/
structure UserSkillRow where
  userId : Nat
  skillId : Nat
deriving DecidableEq, Repr

/-- A row of the `service_requests` table (src/lib/models.py, class
ServiceRequest).  `time` is the scheduled service time in the encoded
timestamp scale. -/
structure RequestRow where
  id : Nat
  requesterId : Nat
  providerId : Nat
  skillId : Nat
  time : Nat
  duration : Int
  creditCost : Int
  status : String
  notes : Option String
deriving DecidableEq, Repr

/-- A row of the `reviews` table (src/lib/models.py, class Review). -/
structure ReviewRow where
  id : Nat
  serviceRequestId : Nat
  reviewerId : Nat
  revieweeId : Nat
  rating : Int
  comments : String
deriving DecidableEq, Repr

/-- The relational store backing the application (the SQLite file). -/
structure DB where
  users : List UserRow
  skills : List SkillRow
  userSkills : List UserSkillRow
  requests : List RequestRow
  reviews : List ReviewRow
deriving DecidableEq, Repr

/-- Domain-level failure outcomes.  Each constructor corresponds to one
of the error messages printed by the Python functions before they
return False. -/
inductive DomainError where
  | unauthenticated
  | notFound
  | forbidden
  | invalidTransition (src dst : String)
  | skillNotOffered
  | pastTime
  | invalidTime
  | invalidDuration
  | invalidCredit
  | invalidRating
  | notCompleted
  | duplicateReview
  | noOp
  | alreadyExists
deriving DecidableEq, Repr

/-! ## Timestamp parsing (src/lib/utils.py, parse_datetime)

`parse_datetime` delegates to Python's
`datetime.strptime(dt_str, "%Y-%m-%dT%H:%M")`: the year is exactly four
digits, the month / day / hour / minute fields are one or two digits in
their calendar ranges, and the day must exist in the given month
(Python's `datetime` constructor enforces this, including leap years,
and requires year at least 1). -/

/-- Leap-year test used by the Gregorian day-of-month bound. -/
def isLeapYear (y : Nat) : Bool :=
  (y % 4 == 0 && y % 100 != 0) || y % 400 == 0

/-- Number of days in month `m` of year `y` (Gregorian). -/
def daysInMonth (y m : Nat) : Nat :=
  if m == 2 then (if isLeapYear y then 29 else 28)
  else if m == 4 || m == 6 || m == 9 || m == 11 then 30
  else 31

/-- Split a character list at every occurrence of the separator `c`
(the analogue of Python's field separation inside strptime). -/
def splitOnChar (c : Char) : List Char → List (List Char)
  | [] => [[]]
  | a :: rest =>
    match splitOnChar c rest with
    | [] => [[a]]
    | g :: gs => if a == c then [] :: g :: gs else (a :: g) :: gs

/-- Numeric value of a digit list (most significant first). -/
def digitsVal (cs : List Char) : Nat :=
  cs.foldl (fun n ch => n * 10 + (ch.toNat - 48)) 0

/-- Parse one numeric field of the timestamp: an all-digit group of
length between `minLen` and `maxLen` whose value lies in `[lo, hi]`,
matching the regular expressions strptime compiles for %Y, %m, %d, %H
and %M together with the datetime constructor's range checks. -/
def parseNumField (cs : List Char) (minLen maxLen lo hi : Nat) : Option Nat :=
  if cs.length < minLen then none
  else if maxLen < cs.length then none
  else if cs.all (·.isDigit) then
    if lo ≤ digitsVal cs then
      if digitsVal cs ≤ hi then some (digitsVal cs) else none
    else none
  else none

/-- Order-preserving encoding of a calendar minute: lexicographic order
on (y, m, d, h, mi) agrees with chronological order, and every factor
strictly bounds its field, so this `Nat` compares exactly as the
corresponding Python `datetime` does. -/
def encodeDT (y m d h mi : Nat) : Nat :=
  (((y * 13 + m) * 32 + d) * 24 + h) * 60 + mi

/-- Model of utils.parse_datetime, which delegates to
`datetime.strptime(dt_str, "%Y-%m-%dT%H:%M")`: `none` is a
`ValueError` from `strptime` or the `datetime` constructor. -/
def parseDatetime (s : String) : Option Nat :=
  match splitOnChar 'T' s.data with
  | [datePart, timePart] =>
    match splitOnChar '-' datePart, splitOnChar ':' timePart with
    | [ys, ms, ds], [hs, mis] =>
      match parseNumField ys 4 4 1 9999, parseNumField ms 1 2 1 12,
            parseNumField ds 1 2 1 31, parseNumField hs 1 2 0 23,
            parseNumField mis 1 2 0 59 with
      | some y, some m, some d, some h, some mi =>
        if d ≤ daysInMonth y m then some (encodeDT y m d h mi) else none
      | _, _, _, _, _ => none
    | _, _ => none
  | _ => none

/-! ## Shared helpers -/

/-- Python truthiness of an optional string argument: `None` and the
empty string are both falsy (`if status:` etc. in src/lib/request.py). -/
def truthy : Option String → Bool
  | none => false
  | some s => !s.isEmpty

/-- SQLite rowid assignment for a table without AUTOINCREMENT: one more
than the largest existing id. -/
def nextId (ids : List Nat) : Nat :=
  ids.foldr max 0 + 1

/-- The provider-existence check of create_request (src/lib/request.py
lines 29-37): a users row with the given id and `deleted_at IS NULL`. -/
def providerExists (db : DB) (providerId : Nat) : Bool :=
  db.users.any (fun u => u.id == providerId && u.deletedAt == none)

/-- The skill-offered check of create_request (src/lib/request.py lines
40-52): the join of `skills` and `user_skills` restricted to the given
skill id and provider id is non-empty. -/
def providerOffersSkill (db : DB) (providerId skillId : Nat) : Bool :=
  db.skills.any (fun s => s.id == skillId) &&
    db.userSkills.any (fun us => us.skillId == skillId && us.userId == providerId)

/-! ## create_request (src/lib/request.py lines 10-95) -/

/-- Model of request.create_request, with the authenticated actor and
the call-time clock passed explicitly.  Checks run in source order:
provider exists and not soft-deleted, provider offers the skill, the
time string parses, the parsed time is not strictly in the past
(`service_time < datetime.now()` is the rejection test), duration at
least 15, credit cost at least 1; then the row is inserted with status
"pending". -/
def create_request (db : DB) (now actorId providerId skillId : Nat)
    (timeStr : String) (duration creditCost : Int) (notes : Option String) :
    DB × Option DomainError :=
  if !providerExists db providerId then (db, some .notFound)
  else if !providerOffersSkill db providerId skillId then (db, some .skillNotOffered)
  else
    match parseDatetime timeStr with
    | none => (db, some .invalidTime)
    | some t =>
      if t < now then (db, some .pastTime)
      else if duration < 15 then (db, some .invalidDuration)
      else if creditCost < 1 then (db, some .invalidCredit)
      else
        ({ db with requests := db.requests ++
            [{ id := nextId (db.requests.map (·.id)), requesterId := actorId,
               providerId := providerId, skillId := skillId, time := t,
               duration := duration, creditCost := creditCost,
               status := "pending", notes := notes }] }, none)

/-! ## update_request (src/lib/request.py lines 222-326) -/

/-- The status-transition validation of update_request (lines 267-284):
from `pending` the requester may cancel and the provider may accept or
reject; from `accepted` the provider may complete; nothing else. -/
def validTransition (cur new : String) (isRequester isProvider : Bool) : Bool :=
  if cur == "pending" then
    (isRequester && new == "cancelled") ||
      (isProvider && (new == "accepted" || new == "rejected"))
  else if cur == "accepted" then
    isProvider && new == "completed"
  else false

/-- The time-field handling of update_request (lines 293-308): when a
truthy time string is supplied it must parse and must not be strictly
in the past; the result is the parsed time to write (`some t`) or
`none` when no time was supplied. -/
def parseUpdateTime (now : Nat) (timeStr : Option String) :
    Except DomainError (Option Nat) :=
  if truthy timeStr then
    match parseDatetime (timeStr.getD "") with
    | none => .error .invalidTime
    | some t =>
      if t < now then .error .pastTime else .ok (some t)
  else .ok none

/-- Model of request.update_request.  Mirrors the source's control flow:
fetch the row, participant check, status-transition validation (only
when a truthy status is supplied), requester-only gate plus parse and
past-time checks for a truthy time, `NoOp` when every field is falsy,
and otherwise a single row update applying all supplied fields. -/
def update_request (db : DB) (now actorId requestId : Nat)
    (status notes timeStr : Option String) : DB × Option DomainError :=
  match db.requests.find? (fun r => r.id == requestId) with
  | none => (db, some .notFound)
  | some r =>
    if !(r.requesterId == actorId || r.providerId == actorId) then
      (db, some .forbidden)
    else if truthy status &&
        !(validTransition r.status (status.getD "") (r.requesterId == actorId)
            (r.providerId == actorId)) then
      (db, some (.invalidTransition r.status (status.getD "")))
    else if truthy timeStr && !(r.requesterId == actorId) then
      (db, some .forbidden)
    else
      match parseUpdateTime now timeStr with
      | .error e => (db, some e)
      | .ok tOpt =>
        if !truthy status && !truthy notes && !truthy timeStr then
          (db, some .noOp)
        else
          ({ db with requests := db.requests.map (fun q =>
              if q.id == requestId then
                { q with
                  status := if truthy status then status.getD "" else q.status,
                  notes := if truthy notes then notes else q.notes,
                  time := tOpt.getD q.time }
              else q) }, none)

/-! ## delete_request (src/lib/request.py lines 328-366)

The DELETE statement touches only `service_requests`.  The SQLAlchemy
models declare `ON DELETE CASCADE` on `reviews.service_request_id`, but
db.get_connection (src/lib/db.py lines 27-29) opens plain sqlite3
connections without `PRAGMA foreign_keys = ON`, so SQLite performs no
cascade: review rows referencing the deleted request remain. -/

/-- Model of request.delete_request: only the requester may delete, with
no restriction on status; reviews are left untouched (no cascade, see
above). -/
def delete_request (db : DB) (actorId requestId : Nat) : DB × Option DomainError :=
  match db.requests.find? (fun r => r.id == requestId) with
  | none => (db, some .notFound)
  | some r =>
    if r.requesterId != actorId then (db, some .forbidden)
    else ({ db with requests := db.requests.filter (fun q => q.id != requestId) }, none)

/-! ## add_review (src/lib/review.py lines 9-88) -/

/-- Model of review.add_review.  Checks run in source order: rating in
[1,5], request exists, actor is a participant, status is exactly
"completed", then the duplicate check on (service_request_id,
reviewer_id); the reviewee is the other participant. -/
def add_review (db : DB) (actorId requestId : Nat) (rating : Int)
    (comments : String) : DB × Option DomainError :=
  if rating < 1 then (db, some .invalidRating)
  else if 5 < rating then (db, some .invalidRating)
  else
    match db.requests.find? (fun r => r.id == requestId) with
    | none => (db, some .notFound)
    | some r =>
      if actorId != r.requesterId && actorId != r.providerId then
        (db, some .forbidden)
      else if r.status != "completed" then (db, some .notCompleted)
      else if db.reviews.any (fun v =>
          v.serviceRequestId == requestId && v.reviewerId == actorId) then
        (db, some .duplicateReview)
      else
        ({ db with reviews := db.reviews ++
            [{ id := nextId (db.reviews.map (·.id)),
               serviceRequestId := requestId, reviewerId := actorId,
               revieweeId := if actorId == r.requesterId then r.providerId
                             else r.requesterId,
               rating := rating, comments := comments }] }, none)

/-! ## register / delete_user (src/lib/auth.py, src/lib/user.py) -/

/-- Model of auth.register (src/lib/auth.py lines 101-142).  The
uniqueness query `SELECT username FROM users WHERE username = ? OR
email = ?` has no `deleted_at` filter, so soft-deleted rows also block
registration. -/
def register (db : DB) (username email passwordHash : String)
    (fullName bio : Option String) : DB × Option DomainError :=
  if db.users.any (fun u => u.username == username || u.email == email) then
    (db, some .alreadyExists)
  else
    ({ db with users := db.users ++
        [{ id := nextId (db.users.map (·.id)), username := username,
           email := email, passwordHash := passwordHash,
           fullName := fullName, bio := bio, deletedAt := none }] }, none)

/-- Model of user.delete_user's confirmed path (src/lib/user.py lines
176-182): `UPDATE users SET deleted_at = NOW() WHERE id = ?` — a soft
delete that never removes the row. -/
def delete_user (db : DB) (actorId now : Nat) : DB × Option DomainError :=
  ({ db with users := db.users.map (fun u =>
      if u.id == actorId then { u with deletedAt := some now } else u) }, none)

/-! ## add_skill / remove_skill (src/lib/skill.py) -/

/-- The first half of skill.add_skill (src/lib/skill.py lines 9-46):
look up the skill by name and, if absent, insert it.  This insertion
persists even when the later duplicate check fails, matching the
source's two separate statements.  Returns the store and the skill id. -/
def ensureSkill (db : DB) (name : String) : DB × Nat :=
  match db.skills.find? (fun s => s.name == name) with
  | some s => (db, s.id)
  | none =>
    ({ db with skills := db.skills ++
        [{ id := nextId (db.skills.map (·.id)), name := name }] },
     nextId (db.skills.map (·.id)))

/-- The link-creation half of skill.add_skill: starting from the store
returned by `ensureSkill`, fail if the actor already has the skill,
else insert the user_skills row. -/
def add_skill (db : DB) (actorId : Nat) (name : String) : DB × Option DomainError :=
  if (ensureSkill db name).1.userSkills.any
      (fun us => us.userId == actorId && us.skillId == (ensureSkill db name).2) then
    ((ensureSkill db name).1, some .alreadyExists)
  else
    ({ (ensureSkill db name).1 with
        userSkills := (ensureSkill db name).1.userSkills ++
          [{ userId := actorId, skillId := (ensureSkill db name).2 }] }, none)

/-- Model of skill.remove_skill (src/lib/skill.py lines 71-107): the
actor must currently have the skill; the link row is then removed. -/
def remove_skill (db : DB) (actorId skillId : Nat) : DB × Option DomainError :=
  if !(db.skills.any (fun s => s.id == skillId) &&
        db.userSkills.any (fun us => us.userId == actorId && us.skillId == skillId)) then
    (db, some .notFound)
  else
    ({ db with userSkills := db.userSkills.filter (fun us =>
        !(us.userId == actorId && us.skillId == skillId)) }, none)

/-! ## Read-only views (src/lib/request.py lines 97-220) -/

/-- Model of request.view_request's row query (lines 168-184): the
WHERE clause restricts to the given id AND the current user being
requester or provider; the JOINs require the referenced user and skill
rows to exist. -/
def view_request (db : DB) (actorId requestId : Nat) : Option RequestRow :=
  db.requests.find? (fun r => r.id == requestId &&
    db.users.any (fun u => u.id == r.requesterId) &&
    db.users.any (fun u => u.id == r.providerId) &&
    db.skills.any (fun s => s.id == r.skillId) &&
    (r.requesterId == actorId || r.providerId == actorId))

/-- Model of request.list_requests (lines 97-155): when a truthy
user_id filter is supplied the listing shows that user's requests,
otherwise the current user's; an optional truthy status filter is
applied on top.  (`if user_id:` — a 0 filter is falsy in Python.) -/
def list_requests (db : DB) (actorId : Nat) (userFilter : Option Nat)
    (statusFilter : Option String) : List RequestRow :=
  let uid : Nat :=
    match userFilter with
    | some u => if u != 0 then u else actorId
    | none => actorId
  db.requests.filter (fun r =>
    db.users.any (fun u => u.id == r.requesterId) &&
    db.users.any (fun u => u.id == r.providerId) &&
    db.skills.any (fun s => s.id == r.skillId) &&
    (r.requesterId == uid || r.providerId == uid) &&
    (match statusFilter with
     | some st => if st.isEmpty then true else r.status == st
     | none => true))

/-! ## Session resolution and the login guard (src/lib/auth.py) -/

/-- The session principal (src/lib/auth.py, class Session). -/
structure Session where
  userId : Nat
  username : String
  email : String
deriving DecidableEq, Repr

/-- Principal resolution in require_login / get_current_user: the
in-memory session if present, else the parse of the persisted session
file (`none` covering both a missing file and an unreadable one, which
load_session discards). -/
def resolveSession (mem file : Option Session) : Option Session :=
  match mem with
  | some s => some s
  | none => file

/-- Model of the auth.require_login decorator (src/lib/auth.py lines
163-174): if no principal resolves, the wrapped operation is not
invoked and the store is returned unchanged with an unauthenticated
error. -/
def require_login (mem file : Option Session) (db : DB)
    (op : Session → DB → DB × Option DomainError) : DB × Option DomainError :=
  match resolveSession mem file with
  | none => (db, some .unauthenticated)
  | some s => op s db

/-! ## The operations as a single step relation (for whole-system invariants) -/

/-- One authenticated domain operation of the embedded core, with its
arguments. -/
inductive Op where
  | createRequest (actorId providerId skillId : Nat) (timeStr : String)
      (duration creditCost : Int) (notes : Option String)
  | updateRequest (actorId requestId : Nat) (status notes timeStr : Option String)
  | deleteRequest (actorId requestId : Nat)
  | addReview (actorId requestId : Nat) (rating : Int) (comments : String)
  | registerUser (username email passwordHash : String) (fullName bio : Option String)
  | deleteUser (actorId : Nat)
  | addSkill (actorId : Nat) (name : String)
  | removeSkill (actorId skillId : Nat)
deriving DecidableEq, Repr

/-- Apply one operation to the store at clock value `now`. -/
def applyOp (db : DB) (now : Nat) : Op → DB × Option DomainError
  | .createRequest a p s ts d c n => create_request db now a p s ts d c n
  | .updateRequest a rid st nt ts => update_request db now a rid st nt ts
  | .deleteRequest a rid => delete_request db a rid
  | .addReview a rid rating comments => add_review db a rid rating comments
  | .registerUser un em ph fn b => register db un em ph fn b
  | .deleteUser a => delete_user db a now
  | .addSkill a name => add_skill db a name
  | .removeSkill a sid => remove_skill db a sid

/-- The review-uniqueness invariant: no two review rows share the same
(service_request_id, reviewer_id) pair. -/
def pairFree : List ReviewRow → Bool
  | [] => true
  | v :: rest =>
    !(rest.any (fun w => w.serviceRequestId == v.serviceRequestId &&
        w.reviewerId == v.reviewerId)) && pairFree rest

/-- The transition/authorization table of spec section 4.2, written from
the spec's words (one line per table row) for comparison with the
source's validTransition. -/
def specAllowed (cur new : String) (isRequester isProvider : Bool) : Bool :=
  (cur == "pending" && new == "cancelled" && isRequester) ||
    (cur == "pending" && new == "accepted" && isProvider) ||
    (cur == "pending" && new == "rejected" && isProvider) ||
    (cur == "accepted" && new == "completed" && isProvider)

/-! ## Concrete store used by witnesses and counterexamples -/

/-- Active user 1 (alice). -/
def exUser1 : UserRow :=
  { id := 1, username := "alice", email := "alice@example.com",
    passwordHash := "h1", fullName := none, bio := none, deletedAt := none }

/-- Active user 2 (bob), the provider of the example requests. -/
def exUser2 : UserRow :=
  { id := 2, username := "bob", email := "bob@example.com",
    passwordHash := "h2", fullName := none, bio := none, deletedAt := none }

/-- Active user 3 (carol), a bystander outside every request. -/
def exUser3 : UserRow :=
  { id := 3, username := "carol", email := "carol@example.com",
    passwordHash := "h3", fullName := none, bio := none, deletedAt := none }

/-- The example clock value: 2025-01-01 12:00. -/
def exNow : Nat := encodeDT 2025 1 1 12 0

/-- Completed request 1 from alice (requester) to bob (provider). -/
def exReq1 : RequestRow :=
  { id := 1, requesterId := 1, providerId := 2, skillId := 1,
    time := exNow, duration := 30, creditCost := 2,
    status := "completed", notes := none }

/-- Pending request 2 from alice (requester) to bob (provider). -/
def exReq2 : RequestRow :=
  { id := 2, requesterId := 1, providerId := 2, skillId := 1,
    time := exNow, duration := 30, creditCost := 2,
    status := "pending", notes := none }

/-- Review 1 by alice on completed request 1, rating bob. -/
def exReview1 : ReviewRow :=
  { id := 1, serviceRequestId := 1, reviewerId := 1, revieweeId := 2,
    rating := 5, comments := "great" }

/-- The example store: three active users, one skill offered by bob,
requests exReq1 (completed) and exReq2 (pending), and exReview1. -/
def exDB : DB :=
  { users := [exUser1, exUser2, exUser3],
    skills := [{ id := 1, name := "lean" }],
    userSkills := [{ userId := 2, skillId := 1 }],
    requests := [exReq1, exReq2],
    reviews := [exReview1] }

/-! # Theorems -/

/-- C8: for every guarded domain operation, if no principal resolves
(no in-memory session and no valid persisted session file), the call
fails with an unauthenticated error and the wrapped operation is not
executed at all (the store is returned unchanged, whatever the
operation is). -/
theorem require_login_blocks_unauthenticated (mem file : Option Session)
    (db : DB) (op : Session → DB → DB × Option DomainError)
    (h : resolveSession mem file = none) :
    require_login mem file db op = (db, some .unauthenticated) := by
  unfold require_login
  rw [h]

/-- Witness for C8: with no in-memory session and no session file, a
store-clearing operation is not run and the store survives intact. -/
theorem require_login_blocks_unauthenticated_witness :
    require_login none none exDB
        (fun _ db => ({ db with reviews := [], requests := [] }, none)) =
      (exDB, some DomainError.unauthenticated) :=
  require_login_blocks_unauthenticated none none exDB
    (fun _ db => ({ db with reviews := [], requests := [] }, none)) rfl

/-- C5: when the named provider exists (and is not soft-deleted) but is
not linked to the given skill in user_skills, create_request fails with
the skill-not-offered error and the store is unchanged (no row is
inserted). -/
theorem create_request_skill_not_offered (db : DB)
    (now actorId providerId skillId : Nat) (timeStr : String)
    (duration creditCost : Int) (notes : Option String)
    (hp : providerExists db providerId = true)
    (hs : db.userSkills.any
        (fun us => us.skillId == skillId && us.userId == providerId) = false) :
    create_request db now actorId providerId skillId timeStr duration
        creditCost notes = (db, some .skillNotOffered) := by
  have hoff : providerOffersSkill db providerId skillId = false := by
    unfold providerOffersSkill
    rw [hs]
    simp
  unfold create_request
  rw [hp, hoff]
  simp

/-- Witness for C5: carol (user 3) offers no skill, so a request naming
her as provider of skill 1 fails with skillNotOffered and inserts
nothing. -/
theorem create_request_skill_not_offered_witness :
    create_request exDB exNow 1 3 1 "2025-02-01T12:00" 30 2 none =
      (exDB, some DomainError.skillNotOffered) :=
  create_request_skill_not_offered exDB exNow 1 3 1 "2025-02-01T12:00" 30 2
    none (by decide) (by decide)

/-- C7 (demonstration of the divergence): deleting completed request 1,
which has review exReview1 attached, succeeds for its requester with no
status restriction and removes the request row, but the review row
referencing the deleted request survives — get_connection never enables
SQLite foreign-key enforcement, so the ON DELETE CASCADE declared in
models.py does not fire; a non-requester's delete fails with forbidden
and changes nothing. -/
theorem delete_request_leaves_reviews :
    (delete_request exDB 1 1).2 = none ∧
    (delete_request exDB 1 1).1.requests.find? (fun r => r.id == 1) = none ∧
    (delete_request exDB 1 1).1.reviews.filter
        (fun v => v.serviceRequestId == 1) = [exReview1] ∧
    delete_request exDB 2 1 = (exDB, some DomainError.forbidden) := by
  refine ⟨by decide, by decide, by decide, by decide⟩

/-- Mapping a username- and email-preserving function over the users
list does not change the registration uniqueness check. -/
theorem any_username_email_map (l : List UserRow) (f : UserRow → UserRow)
    (hf : ∀ u, (f u).username = u.username ∧ (f u).email = u.email)
    (un em : String) :
    ((l.map f).any fun u => u.username == un || u.email == em) =
      (l.any fun u => u.username == un || u.email == em) := by
  induction l with
  | nil => rfl
  | cons a t ih =>
    simp only [List.map_cons, List.any_cons, ih, (hf a).1, (hf a).2]

/-- C10: register refuses any username or email held by an existing
users row — the uniqueness query has no deleted_at filter, so
soft-deleted rows also block — and inserts nothing; and since
delete_user only soft-deletes (it preserves every row's id, username
and email), a deleted account's username or email can never be
registered again. -/
theorem register_blocked_by_soft_deleted (db : DB) (a now : Nat)
    (un em ph : String) (fn b : Option String)
    (h : (db.users.any fun u => u.username == un || u.email == em) = true) :
    register db un em ph fn b = (db, some .alreadyExists) ∧
    register (delete_user db a now).1 un em ph fn b =
      ((delete_user db a now).1, some .alreadyExists) := by
  have hpres : ((delete_user db a now).1.users.any
      fun u => u.username == un || u.email == em) = true := by
    unfold delete_user
    rw [any_username_email_map]
    · exact h
    · intro u
      constructor
      · by_cases hu : (u.id == a) = true <;> simp [hu]
      · by_cases hu : (u.id == a) = true <;> simp [hu]
  constructor
  · unfold register
    rw [h]
    simp
  · unfold register
    rw [hpres]
    simp

/-- Witness for C10: after alice soft-deletes her account, registering
a fresh user with her username still fails and inserts nothing. -/
theorem register_blocked_by_soft_deleted_witness :
    register (delete_user exDB 1 exNow).1 "alice" "new@example.com" "h9"
        none none =
      ((delete_user exDB 1 exNow).1, some DomainError.alreadyExists) :=
  (register_blocked_by_soft_deleted exDB 1 exNow "alice" "new@example.com"
    "h9" none none (by decide)).2

/-- create_request never touches the reviews table. -/
theorem create_request_reviews (db : DB) (now a p s : Nat) (ts : String)
    (d c : Int) (n : Option String) :
    (create_request db now a p s ts d c n).1.reviews = db.reviews := by
  unfold create_request
  repeat' split
  all_goals rfl

/-- update_request never touches the reviews table. -/
theorem update_request_reviews (db : DB) (now a rid : Nat)
    (st nt ts : Option String) :
    (update_request db now a rid st nt ts).1.reviews = db.reviews := by
  unfold update_request
  repeat' split
  all_goals rfl

/-- delete_request never touches the reviews table (no cascade: the
sqlite3 connections never enable foreign-key enforcement). -/
theorem delete_request_reviews (db : DB) (a rid : Nat) :
    (delete_request db a rid).1.reviews = db.reviews := by
  unfold delete_request
  repeat' split
  all_goals rfl

/-- register never touches the reviews table. -/
theorem register_reviews (db : DB) (un em ph : String) (fn b : Option String) :
    (register db un em ph fn b).1.reviews = db.reviews := by
  unfold register
  repeat' split
  all_goals rfl

/-- delete_user never touches the reviews table. -/
theorem delete_user_reviews (db : DB) (a now : Nat) :
    (delete_user db a now).1.reviews = db.reviews := rfl

/-- ensureSkill never touches the reviews table. -/
theorem ensureSkill_reviews (db : DB) (name : String) :
    (ensureSkill db name).1.reviews = db.reviews := by
  unfold ensureSkill
  repeat' split
  all_goals rfl

/-- add_skill never touches the reviews table. -/
theorem add_skill_reviews (db : DB) (a : Nat) (name : String) :
    (add_skill db a name).1.reviews = db.reviews := by
  unfold add_skill
  split
  · exact ensureSkill_reviews db name
  · exact ensureSkill_reviews db name

/-- remove_skill never touches the reviews table. -/
theorem remove_skill_reviews (db : DB) (a sid : Nat) :
    (remove_skill db a sid).1.reviews = db.reviews := by
  unfold remove_skill
  repeat' split
  all_goals rfl

/-- Appending a review whose (request, reviewer) pair is fresh keeps
the uniqueness invariant. -/
theorem pairFree_append (vs : List ReviewRow) (v : ReviewRow)
    (hfree : pairFree vs = true)
    (hnew : (vs.any fun w => w.serviceRequestId == v.serviceRequestId &&
        w.reviewerId == v.reviewerId) = false) :
    pairFree (vs ++ [v]) = true := by
  induction vs with
  | nil => rfl
  | cons a t ih =>
    simp only [List.any_cons, Bool.or_eq_false_iff] at hnew
    simp only [pairFree, Bool.and_eq_true, Bool.not_eq_true'] at hfree
    simp only [List.cons_append, pairFree, Bool.and_eq_true, Bool.not_eq_true',
      List.append_eq, List.any_append, List.any_cons, List.any_nil,
      Bool.or_eq_false_iff, Bool.or_false]
    refine ⟨⟨hfree.1, ?_⟩, ih hfree.2 hnew.2⟩
    rcases Bool.and_eq_false_iff.mp hnew.1 with h1 | h1
    · exact Bool.and_eq_false_iff.mpr (Or.inl (beq_eq_false_iff_ne.mpr
        (Ne.symm (beq_eq_false_iff_ne.mp h1))))
    · exact Bool.and_eq_false_iff.mpr (Or.inr (beq_eq_false_iff_ne.mpr
        (Ne.symm (beq_eq_false_iff_ne.mp h1))))

/-- add_review preserves the review-uniqueness invariant: it inserts
only after its duplicate check found no row with the same
(service_request_id, reviewer_id) pair. -/
theorem add_review_pairFree (db : DB) (a rid : Nat) (rating : Int)
    (comments : String) (hfree : pairFree db.reviews = true) :
    pairFree (add_review db a rid rating comments).1.reviews = true := by
  unfold add_review
  split
  · exact hfree
  split
  · exact hfree
  split
  · exact hfree
  split
  · exact hfree
  split
  · exact hfree
  split
  · exact hfree
  next r _ _ _ hdup =>
    exact pairFree_append db.reviews _ hfree (by
      simpa using hdup)

/-- C2: every embedded operation preserves the at-most-one-review-per-
(request, reviewer) invariant; a call by a reviewer who already has a
review on the request changes nothing and fails; and when such a call
passes all earlier validations (rating in range, request found, actor a
participant, status completed) it fails precisely with duplicateReview. -/
theorem review_pair_unique :
    (∀ db now op, pairFree db.reviews = true →
      pairFree (applyOp db now op).1.reviews = true) ∧
    (∀ db a rid rating comments,
      (db.reviews.any fun v => v.serviceRequestId == rid && v.reviewerId == a) = true →
      (add_review db a rid rating comments).1 = db ∧
      (add_review db a rid rating comments).2 ≠ none) ∧
    (∀ db a rid rating comments r,
      db.requests.find? (fun q => q.id == rid) = some r →
      ¬rating < 1 → ¬5 < rating →
      (a = r.requesterId ∨ a = r.providerId) →
      r.status = "completed" →
      (db.reviews.any fun v => v.serviceRequestId == rid && v.reviewerId == a) = true →
      add_review db a rid rating comments = (db, some .duplicateReview)) := by
  refine ⟨?_, ?_, ?_⟩
  · intro db now op h
    cases op with
    | createRequest a p s ts d c n => rw [applyOp, create_request_reviews]; exact h
    | updateRequest a rid st nt ts => rw [applyOp, update_request_reviews]; exact h
    | deleteRequest a rid => rw [applyOp, delete_request_reviews]; exact h
    | addReview a rid rating comments => exact add_review_pairFree db a rid rating comments h
    | registerUser un em ph fn b => rw [applyOp, register_reviews]; exact h
    | deleteUser a => rw [applyOp, delete_user_reviews]; exact h
    | addSkill a name => rw [applyOp, add_skill_reviews]; exact h
    | removeSkill a sid => rw [applyOp, remove_skill_reviews]; exact h
  · intro db a rid rating comments hdup
    unfold add_review
    repeat' split
    all_goals exact ⟨rfl, by simp⟩
  · intro db a rid rating comments r hfind h1 h5 hpart hst hdup
    have hp : (a != r.requesterId && a != r.providerId) = false := by
      rcases hpart with h | h <;> simp [h]
    have hs' : (r.status != "completed") = false := by simp [hst]
    simp only [add_review, if_neg h1, if_neg h5, hfind, hp, hs', hdup]
    simp

/-- Witness for C2: alice already reviewed completed request 1, so her
second, otherwise valid review attempt fails with duplicateReview and
the store is unchanged. -/
theorem review_pair_unique_witness :
    add_review exDB 1 1 4 "again" = (exDB, some DomainError.duplicateReview) :=
  review_pair_unique.2.2 exDB 1 1 4 "again" exReq1 (by decide) (by decide)
    (by decide) (Or.inl (by decide)) (by decide) (by decide)

/-- C3: add_review succeeds only when the actor is the requester or the
provider of an existing request whose status is exactly "completed",
and on success the one inserted review records as reviewee the other
participant (the provider when the actor is the requester, else the
requester); a non-participant fails with forbidden and a participant of
a non-completed request fails with notCompleted, in both cases with the
store unchanged. -/
theorem add_review_eligibility (db : DB) (a rid : Nat) (rating : Int)
    (comments : String) :
    ((add_review db a rid rating comments).2 = none →
      ∃ r, db.requests.find? (fun q => q.id == rid) = some r ∧
        (a = r.requesterId ∨ a = r.providerId) ∧
        r.status = "completed" ∧
        (add_review db a rid rating comments).1 =
          { db with reviews := db.reviews ++
              [{ id := nextId (db.reviews.map (·.id)),
                 serviceRequestId := rid, reviewerId := a,
                 revieweeId := if a == r.requesterId then r.providerId
                               else r.requesterId,
                 rating := rating, comments := comments }] }) ∧
    (∀ r, db.requests.find? (fun q => q.id == rid) = some r →
      ¬rating < 1 → ¬5 < rating →
      a ≠ r.requesterId → a ≠ r.providerId →
      add_review db a rid rating comments = (db, some .forbidden)) ∧
    (∀ r, db.requests.find? (fun q => q.id == rid) = some r →
      ¬rating < 1 → ¬5 < rating →
      (a = r.requesterId ∨ a = r.providerId) →
      r.status ≠ "completed" →
      add_review db a rid rating comments = (db, some .notCompleted)) := by
  refine ⟨?_, ?_, ?_⟩
  · unfold add_review
    repeat' split
    all_goals intro h
    all_goals try simp at h
    all_goals rename_i x r hfind hpart hstat hnodup hcond
    all_goals refine ⟨r, hfind, ?_, by simpa using hstat, by simp [hcond]⟩
    all_goals simp at hpart
    all_goals by_cases h1 : a = r.requesterId
    all_goals try exact Or.inl h1
    all_goals exact Or.inr (hpart h1)
  · intro r hfind h1 h5 hne1 hne2
    have hp : (a != r.requesterId && a != r.providerId) = true := by
      simp [hne1, hne2]
    simp only [add_review, if_neg h1, if_neg h5, hfind, hp]
    simp
  · intro r hfind h1 h5 hpart hstat
    have hp : (a != r.requesterId && a != r.providerId) = false := by
      rcases hpart with h | h <;> simp [h]
    have hs : (r.status != "completed") = true := by simp [hstat]
    simp only [add_review, if_neg h1, if_neg h5, hfind, hp, hs]
    simp

/-- Witness for C3: bob (the provider) reviews completed request 1;
the call succeeds and the inserted review's reviewee is alice (the
requester); carol, a non-participant, fails with forbidden. -/
theorem add_review_eligibility_witness :
    (∃ r, exDB.requests.find? (fun q => q.id == 1) = some r ∧
      (2 = r.requesterId ∨ 2 = r.providerId) ∧
      r.status = "completed" ∧
      (add_review exDB 2 1 4 "ok").1 =
        { exDB with reviews := exDB.reviews ++
            [{ id := nextId (exDB.reviews.map (·.id)),
               serviceRequestId := 1, reviewerId := 2,
               revieweeId := if 2 == r.requesterId then r.providerId
                             else r.requesterId,
               rating := 4, comments := "ok" }] }) ∧
    add_review exDB 3 1 4 "nope" = (exDB, some DomainError.forbidden) :=
  ⟨(add_review_eligibility exDB 2 1 4 "ok").1 (by decide),
   (add_review_eligibility exDB 3 1 4 "nope").2.1 exReq1 (by decide)
     (by decide) (by decide) (by decide) (by decide)⟩

/-- Counterexample to C4 as stated: the code rejects a scheduled time
only when it is strictly earlier than now (`service_time <
datetime.now()`), so a time string parsing to exactly "now" is accepted
and a row is inserted — the claim's "strictly later than now" is
violated. -/
theorem create_request_accepts_time_equal_to_now :
    parseDatetime "2025-01-01T12:00" = some exNow ∧
    (create_request exDB exNow 1 2 1 "2025-01-01T12:00" 30 2 none).2 = none ∧
    (create_request exDB exNow 1 2 1 "2025-01-01T12:00" 30 2
        none).1.requests.length = 3 := by
  refine ⟨by decide, by decide, by decide⟩

/-- create_request on a missing or soft-deleted provider fails with
notFound. -/
theorem create_request_no_provider (db : DB) (now a p s : Nat) (ts : String)
    (d c : Int) (n : Option String) (hpe : providerExists db p = false) :
    create_request db now a p s ts d c n = (db, some .notFound) := by
  simp only [create_request, hpe]
  simp

/-- create_request where the provider lacks the skill fails with
skillNotOffered. -/
theorem create_request_not_offered (db : DB) (now a p s : Nat) (ts : String)
    (d c : Int) (n : Option String) (hpe : providerExists db p = true)
    (hos : providerOffersSkill db p s = false) :
    create_request db now a p s ts d c n = (db, some .skillNotOffered) := by
  simp only [create_request, hpe, hos]
  simp

/-- create_request with an unparsable time string fails with
invalidTime. -/
theorem create_request_unparsable (db : DB) (now a p s : Nat) (ts : String)
    (d c : Int) (n : Option String) (hpe : providerExists db p = true)
    (hos : providerOffersSkill db p s = true)
    (hp : parseDatetime ts = none) :
    create_request db now a p s ts d c n = (db, some .invalidTime) := by
  simp only [create_request, hpe, hos, hp]
  simp

/-- create_request with a strictly past time fails with pastTime. -/
theorem create_request_past_time (db : DB) (now a p s : Nat) (ts : String)
    (d c : Int) (n : Option String) (t : Nat)
    (hpe : providerExists db p = true)
    (hos : providerOffersSkill db p s = true)
    (hp : parseDatetime ts = some t) (hlt : t < now) :
    create_request db now a p s ts d c n = (db, some .pastTime) := by
  simp only [create_request, hpe, hos, hp]
  simp [hlt]

/-- create_request with a too-short duration fails with
invalidDuration. -/
theorem create_request_bad_duration (db : DB) (now a p s : Nat) (ts : String)
    (d c : Int) (n : Option String) (t : Nat)
    (hpe : providerExists db p = true)
    (hos : providerOffersSkill db p s = true)
    (hp : parseDatetime ts = some t) (hlt : ¬t < now) (hd : d < 15) :
    create_request db now a p s ts d c n = (db, some .invalidDuration) := by
  simp only [create_request, hpe, hos, hp]
  simp [hlt, hd]

/-- create_request with a too-small credit cost fails with
invalidCredit. -/
theorem create_request_bad_credit (db : DB) (now a p s : Nat) (ts : String)
    (d c : Int) (n : Option String) (t : Nat)
    (hpe : providerExists db p = true)
    (hos : providerOffersSkill db p s = true)
    (hp : parseDatetime ts = some t) (hlt : ¬t < now) (hd : ¬d < 15)
    (hc : c < 1) :
    create_request db now a p s ts d c n = (db, some .invalidCredit) := by
  simp only [create_request, hpe, hos, hp]
  simp [hlt, hd, hc]

/-- create_request with all validations passing inserts one pending
row. -/
theorem create_request_inserts (db : DB) (now a p s : Nat) (ts : String)
    (d c : Int) (n : Option String) (t : Nat)
    (hpe : providerExists db p = true)
    (hos : providerOffersSkill db p s = true)
    (hp : parseDatetime ts = some t) (hlt : ¬t < now) (hd : ¬d < 15)
    (hc : ¬c < 1) :
    create_request db now a p s ts d c n =
      ({ db with requests := db.requests ++
          [{ id := nextId (db.requests.map (·.id)), requesterId := a,
             providerId := p, skillId := s, time := t, duration := d,
             creditCost := c, status := "pending", notes := n }] }, none) := by
  simp only [create_request, hpe, hos, hp]
  simp [hlt, hd, hc]

/-- update_request on a missing request id fails with notFound. -/
theorem update_request_no_row (db : DB) (now a rid : Nat)
    (st nt ts : Option String)
    (hfind : db.requests.find? (fun q => q.id == rid) = none) :
    update_request db now a rid st nt ts = (db, some .notFound) := by
  simp only [update_request, hfind]

/-- update_request by a non-participant fails with forbidden. -/
theorem update_request_not_participant (db : DB) (now a rid : Nat)
    (st nt ts : Option String) (r : RequestRow)
    (hfind : db.requests.find? (fun q => q.id == rid) = some r)
    (hb : (r.requesterId == a || r.providerId == a) = false) :
    update_request db now a rid st nt ts = (db, some .forbidden) := by
  simp only [update_request, hfind, hb]
  simp

/-- update_request with an invalid status transition fails with
invalidTransition. -/
theorem update_request_bad_transition (db : DB) (now a rid : Nat)
    (st nt ts : Option String) (r : RequestRow)
    (hfind : db.requests.find? (fun q => q.id == rid) = some r)
    (hb : (r.requesterId == a || r.providerId == a) = true)
    (hs : (truthy st && !validTransition r.status (st.getD "")
        (r.requesterId == a) (r.providerId == a)) = true) :
    update_request db now a rid st nt ts =
      (db, some (.invalidTransition r.status (st.getD ""))) := by
  simp only [update_request, hfind, hb, hs]
  simp

/-- update_request with a truthy time supplied by a non-requester fails
with forbidden. -/
theorem update_request_time_not_requester (db : DB) (now a rid : Nat)
    (st nt ts : Option String) (r : RequestRow)
    (hfind : db.requests.find? (fun q => q.id == rid) = some r)
    (hb : (r.requesterId == a || r.providerId == a) = true)
    (hs : (truthy st && !validTransition r.status (st.getD "")
        (r.requesterId == a) (r.providerId == a)) = false)
    (ht : (truthy ts && !(r.requesterId == a)) = true) :
    update_request db now a rid st nt ts = (db, some .forbidden) := by
  simp only [update_request, hfind, hb, hs, ht]
  simp

/-- update_request propagates a time-validation failure. -/
theorem update_request_time_failed (db : DB) (now a rid : Nat)
    (st nt ts : Option String) (r : RequestRow) (e : DomainError)
    (hfind : db.requests.find? (fun q => q.id == rid) = some r)
    (hb : (r.requesterId == a || r.providerId == a) = true)
    (hs : (truthy st && !validTransition r.status (st.getD "")
        (r.requesterId == a) (r.providerId == a)) = false)
    (ht : (truthy ts && !(r.requesterId == a)) = false)
    (hpt : parseUpdateTime now ts = .error e) :
    update_request db now a rid st nt ts = (db, some e) := by
  simp only [update_request, hfind, hb, hs, ht, hpt]
  simp

/-- update_request with every field falsy fails with noOp. -/
theorem update_request_no_fields (db : DB) (now a rid : Nat)
    (st nt ts : Option String) (r : RequestRow) (tOpt : Option Nat)
    (hfind : db.requests.find? (fun q => q.id == rid) = some r)
    (hb : (r.requesterId == a || r.providerId == a) = true)
    (hs : (truthy st && !validTransition r.status (st.getD "")
        (r.requesterId == a) (r.providerId == a)) = false)
    (ht : (truthy ts && !(r.requesterId == a)) = false)
    (hpt : parseUpdateTime now ts = .ok tOpt)
    (hall : (!truthy st && !truthy nt && !truthy ts) = true) :
    update_request db now a rid st nt ts = (db, some .noOp) := by
  simp only [update_request, hfind, hb, hs, ht, hpt, hall]
  simp

/-- update_request with at least one truthy field and all checks passed
applies the single row update. -/
theorem update_request_applies (db : DB) (now a rid : Nat)
    (st nt ts : Option String) (r : RequestRow) (tOpt : Option Nat)
    (hfind : db.requests.find? (fun q => q.id == rid) = some r)
    (hb : (r.requesterId == a || r.providerId == a) = true)
    (hs : (truthy st && !validTransition r.status (st.getD "")
        (r.requesterId == a) (r.providerId == a)) = false)
    (ht : (truthy ts && !(r.requesterId == a)) = false)
    (hpt : parseUpdateTime now ts = .ok tOpt)
    (hall : (!truthy st && !truthy nt && !truthy ts) = false) :
    update_request db now a rid st nt ts =
      ({ db with requests := db.requests.map (fun q =>
          if q.id == rid then
            { q with
              status := if truthy st then st.getD "" else q.status,
              notes := if truthy nt then nt else q.notes,
              time := tOpt.getD q.time }
          else q) }, none) := by
  simp only [update_request, hfind, hb, hs, ht, hpt, hall]
  simp

/-- A successful parseUpdateTime on a truthy time string yields a
parsed, not-strictly-past time. -/
theorem parseUpdateTime_ok (now : Nat) (ts : Option String) (tOpt : Option Nat)
    (htr : truthy ts = true) (h : parseUpdateTime now ts = .ok tOpt) :
    ∃ t, tOpt = some t ∧ parseDatetime (ts.getD "") = some t ∧ ¬t < now := by
  unfold parseUpdateTime at h
  rw [htr] at h
  simp only [if_true] at h
  cases hp : parseDatetime (ts.getD "") with
  | none =>
    simp only [hp] at h
    exact Except.noConfusion h
  | some t =>
    simp only [hp] at h
    by_cases hlt : t < now
    · rw [if_pos hlt] at h; exact Except.noConfusion h
    · rw [if_neg hlt] at h
      exact ⟨t, (Except.ok.inj h).symm, rfl, hlt⟩

/-- A truthy time string that is unparsable or strictly past makes
parseUpdateTime fail. -/
theorem parseUpdateTime_bad (now : Nat) (ts : Option String)
    (htr : truthy ts = true)
    (hbad : parseDatetime (ts.getD "") = none ∨
      ∃ t, parseDatetime (ts.getD "") = some t ∧ t < now) :
    ∃ e, parseUpdateTime now ts = .error e := by
  unfold parseUpdateTime
  rw [htr]
  simp only [if_true]
  rcases hbad with hn | ⟨t, ht, hlt⟩
  · simp only [hn]
    exact ⟨.invalidTime, rfl⟩
  · simp only [ht]
    exact ⟨.pastTime, by rw [if_pos hlt]⟩

/-- C4 (amended): creating or rescheduling requires the time string to
parse and the parsed time to be no earlier than now (the code rejects
only strictly past times); a past or unparsable time always makes the
call fail with the store unchanged; and a successful update that
touches the time implies the actor is the requester. -/
theorem request_time_validation :
    (∀ db now a p s ts d c n,
      (create_request db now a p s ts d c n).2 = none →
      ∃ t, parseDatetime ts = some t ∧ ¬t < now) ∧
    (∀ db now a p s ts d c n,
      (parseDatetime ts = none ∨ ∃ t, parseDatetime ts = some t ∧ t < now) →
      (create_request db now a p s ts d c n).1 = db ∧
      (create_request db now a p s ts d c n).2 ≠ none) ∧
    (∀ db now a rid st nt ts, truthy ts = true →
      (update_request db now a rid st nt ts).2 = none →
      ∃ r t, db.requests.find? (fun q => q.id == rid) = some r ∧
        r.requesterId = a ∧ parseDatetime (ts.getD "") = some t ∧ ¬t < now) ∧
    (∀ db now a rid st nt ts, truthy ts = true →
      (parseDatetime (ts.getD "") = none ∨
        ∃ t, parseDatetime (ts.getD "") = some t ∧ t < now) →
      (update_request db now a rid st nt ts).1 = db ∧
      (update_request db now a rid st nt ts).2 ≠ none) := by
  refine ⟨?_, ?_, ?_, ?_⟩
  · intro db now a p s ts d c n h
    cases hpe : providerExists db p with
    | false => rw [create_request_no_provider db now a p s ts d c n hpe] at h
               exact absurd h (by simp)
    | true =>
    cases hos : providerOffersSkill db p s with
    | false => rw [create_request_not_offered db now a p s ts d c n hpe hos] at h
               exact absurd h (by simp)
    | true =>
    cases hp : parseDatetime ts with
    | none => rw [create_request_unparsable db now a p s ts d c n hpe hos hp] at h
              exact absurd h (by simp)
    | some t =>
    refine ⟨t, rfl, ?_⟩
    intro hlt
    rw [create_request_past_time db now a p s ts d c n t hpe hos hp hlt] at h
    exact absurd h (by simp)
  · intro db now a p s ts d c n hbad
    cases hpe : providerExists db p with
    | false => rw [create_request_no_provider db now a p s ts d c n hpe]
               exact ⟨rfl, by simp⟩
    | true =>
    cases hos : providerOffersSkill db p s with
    | false => rw [create_request_not_offered db now a p s ts d c n hpe hos]
               exact ⟨rfl, by simp⟩
    | true =>
    rcases hbad with hn | ⟨t, ht, hlt⟩
    · rw [create_request_unparsable db now a p s ts d c n hpe hos hn]
      exact ⟨rfl, by simp⟩
    · rw [create_request_past_time db now a p s ts d c n t hpe hos ht hlt]
      exact ⟨rfl, by simp⟩
  · intro db now a rid st nt ts htr h
    cases hfind : db.requests.find? (fun q => q.id == rid) with
    | none => rw [update_request_no_row db now a rid st nt ts hfind] at h
              exact absurd h (by simp)
    | some r =>
    cases hb : (r.requesterId == a || r.providerId == a) with
    | false => rw [update_request_not_participant db now a rid st nt ts r
                 hfind hb] at h
               exact absurd h (by simp)
    | true =>
    cases hs : (truthy st && !validTransition r.status (st.getD "")
        (r.requesterId == a) (r.providerId == a)) with
    | true => rw [update_request_bad_transition db now a rid st nt ts r
                hfind hb hs] at h
              exact absurd h (by simp)
    | false =>
    cases ht : (truthy ts && !(r.requesterId == a)) with
    | true => rw [update_request_time_not_requester db now a rid st nt ts r
                hfind hb hs ht] at h
              exact absurd h (by simp)
    | false =>
    have hreq : r.requesterId = a := by
      rcases Bool.and_eq_false_iff.mp ht with h1 | h1
      · rw [htr] at h1; exact Bool.noConfusion h1
      · simpa using h1
    cases hpt : parseUpdateTime now ts with
    | error e => rw [update_request_time_failed db now a rid st nt ts r e
                   hfind hb hs ht hpt] at h
                 exact absurd h (by simp)
    | ok tOpt =>
    obtain ⟨t, _, hparse, hlt⟩ := parseUpdateTime_ok now ts tOpt htr hpt
    exact ⟨r, t, rfl, hreq, hparse, hlt⟩
  · intro db now a rid st nt ts htr hbad
    obtain ⟨e, hpt⟩ := parseUpdateTime_bad now ts htr hbad
    cases hfind : db.requests.find? (fun q => q.id == rid) with
    | none => rw [update_request_no_row db now a rid st nt ts hfind]
              exact ⟨rfl, by simp⟩
    | some r =>
    cases hb : (r.requesterId == a || r.providerId == a) with
    | false => rw [update_request_not_participant db now a rid st nt ts r
                 hfind hb]
               exact ⟨rfl, by simp⟩
    | true =>
    cases hs : (truthy st && !validTransition r.status (st.getD "")
        (r.requesterId == a) (r.providerId == a)) with
    | true => rw [update_request_bad_transition db now a rid st nt ts r
                hfind hb hs]
              exact ⟨rfl, by simp⟩
    | false =>
    cases ht : (truthy ts && !(r.requesterId == a)) with
    | true => rw [update_request_time_not_requester db now a rid st nt ts r
                hfind hb hs ht]
              exact ⟨rfl, by simp⟩
    | false =>
    rw [update_request_time_failed db now a rid st nt ts r e hfind hb hs ht hpt]
    exact ⟨rfl, by simp⟩

/-- Witness for C4 (amended): an unparsable reschedule time makes
update_request fail with the store unchanged. -/
theorem request_time_validation_witness :
    (update_request exDB exNow 1 2 none none (some "garbage")).1 = exDB ∧
    (update_request exDB exNow 1 2 none none (some "garbage")).2 ≠ none :=
  request_time_validation.2.2.2 exDB exNow 1 2 none none (some "garbage")
    (by decide) (Or.inl (by decide))

/-- The spec's transition/authorization table and the source's
transition check agree on every (from, to, roles) combination. -/
theorem specAllowed_eq_validTransition (cur new : String) (a b : Bool) :
    specAllowed cur new a b = validTransition cur new a b := by
  unfold specAllowed validTransition
  by_cases hp : cur = "pending"
  · subst hp
    have h2 : (("pending" : String) == "accepted") = false := by decide
    simp only [h2, beq_self_eq_true, if_true]
    cases hc : (new == "cancelled") <;> cases hac : (new == "accepted") <;>
      cases hr : (new == "rejected") <;> cases a <;> cases b <;> simp
  · have h1 : (cur == "pending") = false := beq_eq_false_iff_ne.mpr hp
    by_cases ha : cur = "accepted"
    · subst ha
      simp only [h1, beq_self_eq_true, if_false, if_true]
      cases hcm : (new == "completed") <;> cases a <;> cases b <;> simp
    · have h2 : (cur == "accepted") = false := beq_eq_false_iff_ne.mpr ha
      simp [h1, h2]

/-- C1: with a status field supplied, a status change is applied
exactly when the (from, to, actor-role) triple is in the spec's table:
an allowed triple yields the single row update writing the new status,
a non-participant actor is rejected with forbidden, and a participant
attempting a triple outside the table is rejected with
invalidTransition naming the from/to pair — in both rejection cases the
store is unchanged. -/
theorem update_request_transition_table (db : DB) (now a rid : Nat)
    (s : String) (r : RequestRow) (nt ts : Option String)
    (hfind : db.requests.find? (fun q => q.id == rid) = some r)
    (hs : s.isEmpty = false) :
    (specAllowed r.status s (r.requesterId == a) (r.providerId == a) = true →
      update_request db now a rid (some s) none none =
        ({ db with requests := db.requests.map (fun q =>
            if q.id == rid then { q with status := s } else q) }, none)) ∧
    ((r.requesterId == a || r.providerId == a) = false →
      update_request db now a rid (some s) nt ts = (db, some .forbidden)) ∧
    ((r.requesterId == a || r.providerId == a) = true →
      specAllowed r.status s (r.requesterId == a) (r.providerId == a) = false →
      update_request db now a rid (some s) nt ts =
        (db, some (.invalidTransition r.status s))) := by
  refine ⟨?_, ?_, ?_⟩
  · intro hsa
    have hvt : validTransition r.status s (r.requesterId == a)
        (r.providerId == a) = true :=
      specAllowed_eq_validTransition r.status s _ _ ▸ hsa
    have hb : (r.requesterId == a || r.providerId == a) = true := by
      cases hreq : (r.requesterId == a) with
      | true => simp
      | false =>
        cases hprov : (r.providerId == a) with
        | true => simp
        | false =>
          rw [hreq, hprov] at hsa
          simp [specAllowed] at hsa
    have hscond : (truthy (some s) && !validTransition r.status
        ((some s).getD "") (r.requesterId == a) (r.providerId == a)) = false := by
      simp only [Option.getD_some, hvt]
      simp
    have ht : (truthy (none : Option String) && !(r.requesterId == a)) = false := rfl
    have hall : (!truthy (some s) && !truthy (none : Option String) &&
        !truthy (none : Option String)) = false := by
      simp [truthy, hs]
    rw [update_request_applies db now a rid (some s) none none r none hfind hb
      hscond ht rfl hall]
    simp [truthy, hs]
  · intro hb
    exact update_request_not_participant db now a rid (some s) nt ts r hfind hb
  · intro hb hsa
    have hvt : validTransition r.status s (r.requesterId == a)
        (r.providerId == a) = false :=
      specAllowed_eq_validTransition r.status s _ _ ▸ hsa
    have hscond : (truthy (some s) && !validTransition r.status
        ((some s).getD "") (r.requesterId == a) (r.providerId == a)) = true := by
      simp only [Option.getD_some, hvt, truthy, hs]
      simp
    exact update_request_bad_transition db now a rid (some s) nt ts r hfind hb
      hscond

/-- Witness for C1: on pending request 2, the provider bob accepts —
the triple (pending, accepted, provider) is in the table and the row's
status becomes "accepted"; the requester alice attempting the same
transition is rejected with invalidTransition. -/
theorem update_request_transition_table_witness :
    update_request exDB exNow 2 2 (some "accepted") none none =
      ({ exDB with requests := exDB.requests.map (fun q =>
          if q.id == 2 then { q with status := "accepted" } else q) }, none) ∧
    update_request exDB exNow 1 2 (some "accepted") none none =
      (exDB, some (DomainError.invalidTransition "pending" "accepted")) :=
  ⟨(update_request_transition_table exDB exNow 2 2 "accepted" exReq2 none none
      (by decide) (by decide)).1 (by decide),
   by
    have h := (update_request_transition_table exDB exNow 1 2 "accepted" exReq2
      none none (by decide) (by decide)).2.2 (by decide) (by decide)
    simpa using h⟩

/-- update_request reads its optional fields only through their Python
truthiness (and, when truthy, their contents), so replacing a field by
any other field with the same truthiness and contents gives the same
result. -/
theorem update_request_congr (db : DB) (now a rid : Nat)
    (st st' nt nt' ts ts' : Option String)
    (h1 : truthy st = truthy st') (h2 : st.getD "" = st'.getD "")
    (h3 : truthy nt = truthy nt') (h4 : truthy nt = true → nt = nt')
    (h5 : truthy ts = truthy ts') (h6 : ts.getD "" = ts'.getD "") :
    update_request db now a rid st nt ts =
      update_request db now a rid st' nt' ts' := by
  have hpt : parseUpdateTime now ts = parseUpdateTime now ts' := by
    unfold parseUpdateTime
    rw [h5, h6]
  by_cases htn : truthy nt = true
  · rw [h4 htn]
    unfold update_request
    rw [h1, h2, h5, hpt]
  · have htn2 : truthy nt = false := by
      revert htn
      cases truthy nt <;> simp
    have htn3 : truthy nt' = false := h3 ▸ htn2
    unfold update_request
    rw [h1, h2, h5, hpt, htn2, htn3]
    simp

/-- C9: in update_request an empty string supplied for status, notes or
time is treated identically to not supplying the field (Python
truthiness), so notes can never be cleared to empty; and a call on an
accessible request in which every field is falsy performs no write and
fails with the no-updates error. -/
theorem update_request_empty_like_none (db : DB) (now a rid : Nat) :
    (∀ nt ts, update_request db now a rid (some "") nt ts =
      update_request db now a rid none nt ts) ∧
    (∀ st ts, update_request db now a rid st (some "") ts =
      update_request db now a rid st none ts) ∧
    (∀ st nt, update_request db now a rid st nt (some "") =
      update_request db now a rid st nt none) ∧
    (∀ st nt ts r, db.requests.find? (fun q => q.id == rid) = some r →
      (r.requesterId == a || r.providerId == a) = true →
      truthy st = false → truthy nt = false → truthy ts = false →
      update_request db now a rid st nt ts = (db, some .noOp)) := by
  refine ⟨?_, ?_, ?_, ?_⟩
  · intro nt ts
    exact update_request_congr db now a rid (some "") none nt nt ts ts rfl rfl
      rfl (fun h => rfl) rfl rfl
  · intro st ts
    exact update_request_congr db now a rid st st (some "") none ts ts rfl rfl
      rfl (fun h => Bool.noConfusion h) rfl rfl
  · intro st nt
    exact update_request_congr db now a rid st st nt nt (some "") none rfl rfl
      rfl (fun h => rfl) rfl rfl
  · intro st nt ts r hfind hb hstf hntf htsf
    have hscond : (truthy st && !validTransition r.status (st.getD "")
        (r.requesterId == a) (r.providerId == a)) = false := by
      rw [hstf]
      simp
    have ht : (truthy ts && !(r.requesterId == a)) = false := by
      rw [htsf]
      simp
    have hpt : parseUpdateTime now ts = .ok none := by
      unfold parseUpdateTime
      rw [htsf]
      simp
    have hall : (!truthy st && !truthy nt && !truthy ts) = true := by
      rw [hstf, hntf, htsf]
      simp
    exact update_request_no_fields db now a rid st nt ts r none hfind hb hscond
      ht hpt hall

/-- Witness for C9: on pending request 2 with alice as actor, a call
supplying empty strings for every field is the same as supplying
nothing and fails with noOp, leaving the store unchanged. -/
theorem update_request_empty_like_none_witness :
    update_request exDB exNow 1 2 (some "") (some "") (some "") =
      (exDB, some DomainError.noOp) := by
  have h1 := (update_request_empty_like_none exDB exNow 1 2).1 (some "") (some "")
  have h4 := (update_request_empty_like_none exDB exNow 1 2).2.2.2 none
    (some "") (some "") exReq2 (by decide) (by decide) rfl rfl rfl
  rw [h1, h4]

/-- Counterexample to C6 as stated: list_requests accepts an arbitrary
user filter (exposed as `request list --user` in the CLI), so carol
(user 3), who is neither requester nor provider of any request, obtains
a listing containing alice's requests 1 and 2. -/
theorem list_requests_visible_to_outsider :
    list_requests exDB 3 (some 1) none = [exReq1, exReq2] ∧
    exReq1.requesterId ≠ 3 ∧ exReq1.providerId ≠ 3 ∧
    exReq2.requesterId ≠ 3 ∧ exReq2.providerId ≠ 3 := by
  refine ⟨by decide, by decide, by decide, by decide, by decide⟩

/-- C6 (amended): full request details (view_request) and mutations
(update_request, delete_request) are restricted to the request's
participants, and the default listing (no user filter) shows only the
actor's own requests; but list_requests with an explicit user filter
lets any authenticated user obtain summary rows of another user's
requests. -/
theorem request_access_participants_only :
    (∀ db a rid r, view_request db a rid = some r →
      r.requesterId = a ∨ r.providerId = a) ∧
    (∀ db a sf r, r ∈ list_requests db a none sf →
      r.requesterId = a ∨ r.providerId = a) ∧
    (∀ db now a rid st nt ts r,
      db.requests.find? (fun q => q.id == rid) = some r →
      r.requesterId ≠ a → r.providerId ≠ a →
      update_request db now a rid st nt ts = (db, some .forbidden)) ∧
    (∀ db a rid r, db.requests.find? (fun q => q.id == rid) = some r →
      r.requesterId ≠ a →
      delete_request db a rid = (db, some .forbidden)) := by
  refine ⟨?_, ?_, ?_, ?_⟩
  · intro db a rid r h
    have hp := List.find?_some h
    simp only [Bool.and_eq_true, beq_iff_eq, Bool.or_eq_true] at hp
    tauto
  · intro db a sf r h
    have hp := (List.mem_filter.mp h).2
    simp only [Bool.and_eq_true, beq_iff_eq, Bool.or_eq_true] at hp
    tauto
  · intro db now a rid st nt ts r hfind hne1 hne2
    have hb : (r.requesterId == a || r.providerId == a) = false := by
      simp [hne1, hne2]
    exact update_request_not_participant db now a rid st nt ts r hfind hb
  · intro db a rid r hfind hne
    have hb : (r.requesterId != a) = true := bne_iff_ne.mpr hne
    simp only [delete_request, hfind, hb]
    simp

/-- Witness for C6 (amended): carol (user 3) attempting to complete
request 1 is rejected with forbidden and the store is unchanged. -/
theorem request_access_participants_only_witness :
    update_request exDB exNow 3 1 (some "completed") none none =
      (exDB, some DomainError.forbidden) :=
  request_access_participants_only.2.2.1 exDB exNow 3 1 (some "completed")
    none none exReq1 (by decide) (by decide) (by decide)

end SkillSwap
